import Mathlib

/-!
Shallow embedding of `src/main.py` (Okramjimmy/gemini_transliteration).

The program is a FastAPI application with three POST handlers:
`/transliterate/text`, `/transliterate/file` and `/ner`.  Each handler wraps
its whole body in `try: ... except Exception as e: return ErrorResponse(error=str(e))`.
The external LLM call (`model.generate_content`) is modelled as an oracle
function `String → Except Exn String`; `json.loads` is modelled as a parameter
`String → Option JsonValue` (parsing either fails, raising `JSONDecodeError`,
or yields a JSON value).  Document text extraction (python-docx) is modelled by
giving an upload its list of paragraph texts.
-/

namespace GeminiTransliteration

/-- The apostrophe character, used in Python f-string prompts. -/
def sq : String := String.singleton (Char.ofNat 39)

/-- The backtick character (U+0060), used by the fenced-code-block pattern. -/
def bq : Char := Char.ofNat 96

/-- Whitespace as recognised by Python `str.strip()` (characters for which
`str.isspace()` is true): ASCII whitespace, the C1 and Unicode space
characters. -/
def pyIsSpace (c : Char) : Bool :=
  let n := c.toNat
  (9 ≤ n && n ≤ 13) || (28 ≤ n && n ≤ 31) || n == 32 || n == 0x85 || n == 0xa0 ||
  n == 0x1680 || (0x2000 ≤ n && n ≤ 0x200a) || n == 0x2028 || n == 0x2029 ||
  n == 0x202f || n == 0x205f || n == 0x3000

/-- Python `s.strip()`: remove leading and trailing whitespace. -/
def pyStrip (s : String) : String :=
  String.mk (((s.data.dropWhile pyIsSpace).reverse.dropWhile pyIsSpace).reverse)

/-- The code fence delimiter of the regex pattern `r"```(?:json)?(.*?)```"`. -/
def fenceL : List Char := "```".data

/-- The optional tag of the regex pattern. -/
def jsonTagL : List Char := "json".data

/-- Split a character list at the first occurrence of `pat`, returning the
part before the occurrence and the part after it; `none` when `pat` does not
occur.  This is the scanning behaviour of a leftmost regex match. -/
def splitOnFirst (pat : List Char) : List Char → Option (List Char × List Char)
  | [] => if pat.isPrefixOf ([] : List Char) then some ([], []) else none
  | c :: cs =>
    if pat.isPrefixOf (c :: cs) then some ([], (c :: cs).drop pat.length)
    else
      match splitOnFirst pat cs with
      | some (a, b) => some (c :: a, b)
      | none => none

/-- `re.search(r"```(?:json)?(.*?)```", s, re.DOTALL)`, returning `group(1)`:
find the first fence, optionally skip a literal `json` tag, and take the
characters up to the next fence (the lazy `(.*?)` stops at the earliest
closing fence; the leftmost match starts at the first fence that has a
closing fence, which with backtick-free tags coincides with this scan). -/
def extractFenced (s : List Char) : Option (List Char) :=
  match splitOnFirst fenceL s with
  | none => none
  | some (_, rest) =>
    let rest2 := if jsonTagL.isPrefixOf rest then rest.drop jsonTagL.length else rest
    match splitOnFirst fenceL rest2 with
    | none => none
    | some (inner, _) => some inner

/-- String-level version of `extractFenced`. -/
def extractFencedStr (s : String) : Option String :=
  (extractFenced s.data).map String.mk

/-- `true` when `sub` occurs as a contiguous substring of `s`. -/
def strContains (s sub : String) : Bool :=
  (splitOnFirst sub.data s.data).isSome

/-- JSON values as produced by `json.loads`. -/
inductive JsonValue where
  | obj (fields : List (String × JsonValue))
  | arr (elems : List JsonValue)
  | str (s : String)
  | num (n : Int)
  | bool (b : Bool)
  | null
deriving Repr

/-- Exceptions that can cross the handler `try` boundary. -/
inductive Exn where
  | httpException (status : Nat) (detail : String)
  | nameError (name : String)
  | validationError (msg : String)
  | other (msg : String)
deriving Repr, DecidableEq

/-- Python `str(e)` for the exceptions above.  Starlette `HTTPException`
renders as `"<status>: <detail>"`; a `NameError` for an undefined name `n`
renders as `"name 'n' is not defined"`; for the remaining kinds the carried
message is returned. -/
def strOfExn : Exn → String
  | .httpException status detail => toString status ++ ": " ++ detail
  | .nameError n => "name " ++ sq ++ n ++ sq ++ " is not defined"
  | .validationError msg => msg
  | .other msg => msg

/-- Modelled rendering of the pydantic `ValidationError` raised by
`NERResponse(entities=<non-dict>)` (the exact prose is pydantic's; only the
fact that an exception with some message is raised matters here). -/
def pydanticDictMsg : String :=
  "1 validation error for NERResponse\nentities\n  Input should be a valid dictionary"

/-- The four configuration values read from the environment at startup. -/
structure Config where
  geminiApiKey : String
  inputLang : String
  outputLang : String
  llmModel : String
deriving Repr, DecidableEq

/-- Python truthiness of `os.getenv` results: `None` and `""` are falsy. -/
def truthy : Option String → Bool
  | none => false
  | some s => s ≠ ""

/-- Module-level startup (main.py lines 15-28): read the four environment
variables and raise `ValueError` if any is absent or empty, else configure. -/
def startup (env : String → Option String) : Except String Config :=
  if !truthy (env "GEMINI_API_KEY") then .error "GEMINI_API_KEY not found in .env file."
  else if !truthy (env "INPUT_LANG") then .error "INPUT_LANG not found in .env file."
  else if !truthy (env "OUTPUT_LANG") then .error "OUTPUT_LANG not found in .env file."
  else if !truthy (env "LLM_MODEL") then .error "LLM_MODEL not found in .env file."
  else .ok ⟨(env "GEMINI_API_KEY").getD "", (env "INPUT_LANG").getD "",
            (env "OUTPUT_LANG").getD "", (env "LLM_MODEL").getD ""⟩

/-- The required content type of file uploads. -/
def docxMime : String :=
  "application/vnd.openxmlformats-officedocument.wordprocessingml.document"

/-- An upload, as seen by the handlers: its declared content type and the
paragraph texts python-docx would extract from its bytes. -/
structure UploadFile where
  contentType : String
  paragraphs : List String
deriving Repr, DecidableEq

/-- Observable side effects of one request: whether `file.read()` was awaited
and whether `model.generate_content` was invoked. -/
structure Effects where
  readCalled : Bool
  oracleCalled : Bool
deriving Repr, DecidableEq

/-- An HTTP response: status code and JSON body. -/
structure HttpResponse (β : Type) where
  status : Nat
  body : β
deriving Repr, DecidableEq

/-- Body of a transliteration response: either
`TransliterationResponse(original_text, transliterated_text)` or
`ErrorResponse(error=msg)`. -/
inductive TextBody where
  | ok (original_text transliterated_text : String)
  | err (msg : String)
deriving Repr, DecidableEq

/-- Body of an `/ner` response: either `NERResponse(entities=...)` or
`ErrorResponse(error=msg)`. -/
inductive NerBody where
  | ok (entities : List (String × JsonValue))
  | err (msg : String)
deriving Repr

/-- The prompt of `/transliterate/text` (main.py line 71). -/
def translitPrompt (cfg : Config) (text : String) : String :=
  "Transliterate the following text from " ++ cfg.inputLang ++ " to " ++
  cfg.outputLang ++ " script: " ++ sq ++ text ++ sq ++
  ". Please respond with only transliterated " ++ cfg.outputLang ++
  " script. Do not provide any extra text and dont translate the text"

/-- The NER prompt (main.py lines 125-132). -/
def nerPrompt (cfg : Config) (input_text : String) : String :=
  "\n            Extract named entities (people, organizations, locations, dates, legal terms, legal abbreviations, act names, institute names, law journal names, medical terms, proper nouns, foreign language terms like Latin words, book names, and vehicle numbers) from the following text. \n            For each extracted entity, transliterate it into "
  ++ cfg.outputLang ++
  " script. \n            Return a JSON object where each named entity is a key, and its corresponding transliterated "
  ++ cfg.outputLang ++
  " value is the value.\n\n            Text: " ++ sq ++ input_text ++ sq ++
  "\n            Please return only the JSON object.\n            "

/-- `NERResponse(entities=entities)`: pydantic accepts the value only when it
is a dict (JSON object); any other shape raises a `ValidationError`. -/
def validateEntities : JsonValue → Except Exn (List (String × JsonValue))
  | .obj fields => .ok fields
  | _ => .error (.validationError pydanticDictMsg)

/-- The `try` body of `/transliterate/text` (main.py lines 67-75), before the
`except Exception` boundary: empty input raises `HTTPException(400)`, else the
oracle is called on the prompt and its reply is stripped. -/
def transliterate_text_body (cfg : Config) (oracle : String → Except Exn String)
    (text : String) : Except Exn (String × String) × Effects :=
  if text = "" then
    (.error (.httpException 400 "Please provide text input."), ⟨false, false⟩)
  else
    match oracle (translitPrompt cfg text) with
    | .error e => (.error e, ⟨false, true⟩)
    | .ok reply => (.ok (text, pyStrip reply), ⟨false, true⟩)

/-- Catch-all boundary of the two transliteration handlers: a normal value
becomes a 200 `TransliterationResponse`, an exception becomes a 200
`ErrorResponse(error=str(e))`. -/
def wrapText : Except Exn (String × String) → HttpResponse TextBody
  | .ok (o, t) => ⟨200, .ok o t⟩
  | .error e => ⟨200, .err (strOfExn e)⟩

/-- Handler of `POST /transliterate/text`. -/
def transliterate_text (cfg : Config) (oracle : String → Except Exn String)
    (text : String) : HttpResponse TextBody × Effects :=
  let r := transliterate_text_body cfg oracle text
  (wrapText r.1, r.2)

/-- The `try` body of `/transliterate/file` (main.py lines 86-101): after the
content-type check, the upload is read and its paragraphs joined with
newlines; line 97 then interpolates the name `text`, which is not defined in
this function (its input is `input_text`), so Python raises
`NameError("name 'text' is not defined")` before the oracle is ever called. -/
def transliterate_file_body (cfg : Config) (oracle : String → Except Exn String)
    (file : UploadFile) : Except Exn (String × String) × Effects :=
  if file.contentType ≠ docxMime then
    (.error (.httpException 400 "Invalid file type. Please upload a .docx file."), ⟨false, false⟩)
  else
    let input_text := String.intercalate "\n" file.paragraphs
    let _ := translitPrompt cfg input_text
    let _ := oracle
    (.error (.nameError "text"), ⟨true, false⟩)

/-- Handler of `POST /transliterate/file`. -/
def transliterate_file (cfg : Config) (oracle : String → Except Exn String)
    (file : UploadFile) : HttpResponse TextBody × Effects :=
  let r := transliterate_file_body cfg oracle file
  (wrapText r.1, r.2)

/-- The reply-parsing fallback of `/ner` (main.py lines 139-151), applied to
the stripped reply `ner_text`: direct `json.loads`; on `JSONDecodeError` the
first fenced code block, stripped, is parsed; on failure (or when there is no
block) `HTTPException(400)` carrying `ner_text` in its detail.  A successfully
parsed value then goes through `NERResponse` validation. -/
def nerParseStage (parse : String → Option JsonValue) (ner_text : String) :
    Except Exn (List (String × JsonValue)) :=
  match parse ner_text with
  | some v => validateEntities v
  | none =>
    match extractFencedStr ner_text with
    | some inner =>
      match parse (pyStrip inner) with
      | some v => validateEntities v
      | none =>
        .error (.httpException 400
          ("Could not extract json for NER entities : " ++ ner_text))
    | none =>
      .error (.httpException 400
        ("Could not extract json for NER entities : " ++ ner_text))

/-- The `try` body of `/ner` (main.py lines 111-153): content-type check, text
extraction, oracle call, strip, then the reply-parsing fallback. -/
def extract_and_transliterate_ner_body (cfg : Config)
    (parse : String → Option JsonValue) (oracle : String → Except Exn String)
    (file : UploadFile) : Except Exn (List (String × JsonValue)) × Effects :=
  if file.contentType ≠ docxMime then
    (.error (.httpException 400 "Invalid file type. Please upload a .docx file."), ⟨false, false⟩)
  else
    let input_text := String.intercalate "\n" file.paragraphs
    match oracle (nerPrompt cfg input_text) with
    | .error e => (.error e, ⟨true, true⟩)
    | .ok raw => (nerParseStage parse (pyStrip raw), ⟨true, true⟩)

/-- Catch-all boundary of the `/ner` handler. -/
def wrapNer : Except Exn (List (String × JsonValue)) → HttpResponse NerBody
  | .ok fs => ⟨200, .ok fs⟩
  | .error e => ⟨200, .err (strOfExn e)⟩

/-- Handler of `POST /ner`. -/
def extract_and_transliterate_ner (cfg : Config)
    (parse : String → Option JsonValue) (oracle : String → Except Exn String)
    (file : UploadFile) : HttpResponse NerBody × Effects :=
  let r := extract_and_transliterate_ner_body cfg parse oracle file
  (wrapNer r.1, r.2)

/-! Concrete instances used in witnesses and counterexamples. -/

/-- A configuration as the deployment intends (English → Assamese). -/
def cfg0 : Config := ⟨"key", "English", "Assamese", "gemini-1.5-pro"⟩

/-- A docx upload whose single paragraph is `hello`. -/
def fileDocx : UploadFile := ⟨docxMime, ["hello"]⟩

/-- An upload with a non-docx content type. -/
def filePlain : UploadFile := ⟨"text/plain", ["hello"]⟩

/-- A `json.loads` behaviour that fails on every string; consistent with the
real parser on every input it is applied to below (none is valid JSON). -/
def parseNone : String → Option JsonValue := fun _ => none

/-- An oracle replying `"nope\n"` to every prompt. -/
def oracleNope : String → Except Exn String := fun _ => .ok "nope\n"

/-- An oracle that raises on every prompt. -/
def oracleBoom : String → Except Exn String := fun _ => .error (.other "boom")

/-- `true` when the value is `Except.error`. -/
def isError {ε α : Type} : Except ε α → Bool
  | .error _ => true
  | .ok _ => false

/-! Helper lemmas about the scanning primitives. -/

theorem isPrefixOf_append_self : ∀ (l r : List Char), l.isPrefixOf (l ++ r) = true
  | [], _ => by simp [List.isPrefixOf]
  | c :: cs, r => by simp [List.isPrefixOf, isPrefixOf_append_self cs r]

theorem isPrefixOf_self (l : List Char) : l.isPrefixOf l = true := by
  have h := isPrefixOf_append_self l []
  rwa [List.append_nil] at h

/-- The first occurrence of a pattern `pc :: ps` after a stretch `a` free of
the pattern's head character is found exactly after `a`. -/
theorem splitOnFirst_append_notMem (pc : Char) (ps b : List Char) :
    ∀ a : List Char, pc ∉ a →
      splitOnFirst (pc :: ps) (a ++ ((pc :: ps) ++ b)) = some (a, b)
  | [], _ => by
    show splitOnFirst (pc :: ps) (pc :: (ps ++ b)) = some ([], b)
    rw [splitOnFirst]
    have hpre : (pc :: ps).isPrefixOf (pc :: (ps ++ b)) = true :=
      isPrefixOf_append_self (pc :: ps) b
    simp only [hpre, if_true]
    simp [List.drop_left (pc :: ps) b]
  | c :: a', h => by
    have hc : pc ≠ c := fun hcontra => h (hcontra ▸ List.mem_cons_self c a')
    have h' : pc ∉ a' := fun hmem => h (List.mem_cons_of_mem c hmem)
    show splitOnFirst (pc :: ps) (c :: (a' ++ ((pc :: ps) ++ b))) = some (c :: a', b)
    rw [splitOnFirst]
    have hpre : (pc :: ps).isPrefixOf (c :: (a' ++ ((pc :: ps) ++ b))) = false := by
      simp [List.isPrefixOf, hc]
    simp only [hpre, Bool.false_eq_true, if_false]
    rw [splitOnFirst_append_notMem pc ps b a' h']

/-- A pattern occurring as a suffix is always found. -/
theorem splitOnFirst_suffix_isSome :
    ∀ (pre pat : List Char), (splitOnFirst pat (pre ++ pat)).isSome = true
  | [], [] => rfl
  | [], c :: cs => by
    show (splitOnFirst (c :: cs) (c :: cs)).isSome = true
    rw [splitOnFirst]
    simp [isPrefixOf_self]
  | c :: pre', pat => by
    show (splitOnFirst pat (c :: (pre' ++ pat))).isSome = true
    rw [splitOnFirst]
    by_cases hpre : pat.isPrefixOf (c :: (pre' ++ pat)) = true
    · simp [hpre]
    · simp only [hpre]
      have ih := splitOnFirst_suffix_isSome pre' pat
      rcases hsp : splitOnFirst pat (pre' ++ pat) with _ | ⟨a, b⟩
      · rw [hsp] at ih; simp at ih
      · simp

/-- A string contains its own suffix. -/
theorem strContains_append_right (a t : String) : strContains (a ++ t) t = true := by
  unfold strContains
  rw [String.data_append]
  exact splitOnFirst_suffix_isSome a.data t.data

/-- A block with no backtick that does not itself start with the `json` tag is
still not tag-prefixed after the closing fence is appended (the tag has no
backtick, so it cannot reach across the fence). -/
theorem jsonTag_not_prefix_of_block :
    ∀ (b r : List Char), bq ∉ b → jsonTagL.isPrefixOf b = false →
      jsonTagL.isPrefixOf (b ++ (fenceL ++ r)) = false
  | [], r, _, _ => by
    show jsonTagL.isPrefixOf (fenceL ++ r) = false
    simp [jsonTagL, fenceL, List.isPrefixOf, bq]
  | [c1], r, hb, _ => by
    show jsonTagL.isPrefixOf (c1 :: (fenceL ++ r)) = false
    simp [jsonTagL, fenceL, List.isPrefixOf, bq]
  | [c1, c2], r, hb, _ => by
    show jsonTagL.isPrefixOf (c1 :: c2 :: (fenceL ++ r)) = false
    simp [jsonTagL, fenceL, List.isPrefixOf, bq]
  | [c1, c2, c3], r, hb, _ => by
    show jsonTagL.isPrefixOf (c1 :: c2 :: c3 :: (fenceL ++ r)) = false
    simp [jsonTagL, fenceL, List.isPrefixOf, bq]
  | c1 :: c2 :: c3 :: c4 :: b', r, _, htag => by
    show jsonTagL.isPrefixOf (c1 :: c2 :: c3 :: c4 :: (b' ++ (fenceL ++ r))) = false
    simp only [jsonTagL, List.isPrefixOf] at htag ⊢
    simpa using htag

/-- The regex scan finds the first fenced block: with a backtick-free,
untagged first block `b₁`, the extracted `group(1)` is exactly `b₁`,
whatever comes later. -/
theorem extractFenced_first_block (p b₁ r : List Char)
    (hp : bq ∉ p) (hb : bq ∉ b₁) (htag : jsonTagL.isPrefixOf b₁ = false) :
    extractFenced (p ++ (fenceL ++ (b₁ ++ (fenceL ++ r)))) = some b₁ := by
  have hfence : fenceL = bq :: ("``".data) := by decide
  unfold extractFenced
  have h1 : splitOnFirst fenceL (p ++ (fenceL ++ (b₁ ++ (fenceL ++ r))))
      = some (p, b₁ ++ (fenceL ++ r)) := by
    rw [hfence]
    exact splitOnFirst_append_notMem bq ("``".data) (b₁ ++ (fenceL ++ r)) p hp
  rw [h1]
  have h2 : jsonTagL.isPrefixOf (b₁ ++ (fenceL ++ r)) = false :=
    jsonTag_not_prefix_of_block b₁ r hb htag
  simp only [h2, Bool.false_eq_true, if_false]
  have h3 : splitOnFirst fenceL (b₁ ++ (fenceL ++ r)) = some (b₁, r) := by
    rw [hfence]
    exact splitOnFirst_append_notMem bq ("``".data) r b₁ hb
  rw [h3]

/-- Both catch-all wrappers always produce a 200 response. -/
theorem wrapText_status (r : Except Exn (String × String)) : (wrapText r).status = 200 := by
  rcases r with ⟨o, t⟩ | e <;> rfl

theorem wrapNer_status (r : Except Exn (List (String × JsonValue))) :
    (wrapNer r).status = 200 := by
  rcases r with fs | e <;> rfl

/-- Evaluation of the `/ner` handler when the content type is right and the
oracle succeeds: the result is the wrapped parse stage on the stripped reply,
with the upload read and the oracle called. -/
theorem ner_eval (cfg : Config) (parse : String → Option JsonValue)
    (oracle : String → Except Exn String) (file : UploadFile) (reply : String)
    (hct : file.contentType = docxMime)
    (hor : oracle (nerPrompt cfg (String.intercalate "\n" file.paragraphs)) = Except.ok reply) :
    extract_and_transliterate_ner cfg parse oracle file
      = (wrapNer (nerParseStage parse (pyStrip reply)), ⟨true, true⟩) := by
  unfold extract_and_transliterate_ner extract_and_transliterate_ner_body
  simp [hct, hor]

/-! Claim theorems. -/

/-- C2: for a valid `.docx` upload, `/transliterate/file` is claimed to return
a successful response carrying the extracted text.  The code does not: line 97
interpolates the undefined name `text` (the function only defines
`input_text`), so every valid upload yields a `NameError` caught by the
blanket handler, and the response body is
`ErrorResponse(error="name 'text' is not defined")`; the oracle is never
invoked.  This theorem evaluates the handler at a concrete valid upload. -/
theorem c2_file_endpoint_always_name_error :
    transliterate_file cfg0 oracleNope fileDocx
      = (⟨200, TextBody.err (strOfExn (Exn.nameError "text"))⟩, ⟨true, false⟩) := rfl

/-- C3 counterexample: on empty text the response is delivered with status
200, not a client-error (4xx) status — the `HTTPException(400)` raised inside
the `try` block is caught by its own `except Exception` clause.  The oracle
is indeed not invoked. -/
theorem c3_counterexample :
    (transliterate_text cfg0 oracleNope "").1.status = 200
    ∧ ((transliterate_text cfg0 oracleNope "").1.status < 400)
    ∧ (transliterate_text cfg0 oracleNope "").2.oracleCalled = false :=
  ⟨rfl, by decide, rfl⟩

/-- C3 (amended): for the empty input text, `/transliterate/text` returns an
error payload whose message is the `HTTPException` rendering
`"400: Please provide text input."` (delivered with success status by the
blanket exception handler), and `model.generate_content` is never called. -/
theorem c3_empty_text_short_circuits (cfg : Config)
    (oracle : String → Except Exn String) :
    transliterate_text cfg oracle ""
      = (⟨200, TextBody.err (strOfExn (Exn.httpException 400 "Please provide text input."))⟩,
         ⟨false, false⟩) := rfl

/-- C4: on either file endpoint, an upload whose content type is not the
Word-processing MIME type yields a client-error payload and `file.read()` is
never awaited. -/
theorem c4_wrong_content_type_no_read (cfg : Config)
    (parse : String → Option JsonValue) (oracle : String → Except Exn String)
    (file : UploadFile) (h : file.contentType ≠ docxMime) :
    transliterate_file cfg oracle file
      = (⟨200, TextBody.err (strOfExn (Exn.httpException 400
            "Invalid file type. Please upload a .docx file."))⟩, ⟨false, false⟩)
    ∧ extract_and_transliterate_ner cfg parse oracle file
      = (⟨200, NerBody.err (strOfExn (Exn.httpException 400
            "Invalid file type. Please upload a .docx file."))⟩, ⟨false, false⟩) := by
  constructor
  · unfold transliterate_file transliterate_file_body
    simp [h, wrapText]
  · unfold extract_and_transliterate_ner extract_and_transliterate_ner_body
    simp [h, wrapNer]

theorem c4_wrong_content_type_no_read_witness :
    transliterate_file cfg0 oracleNope filePlain
      = (⟨200, TextBody.err (strOfExn (Exn.httpException 400
            "Invalid file type. Please upload a .docx file."))⟩, ⟨false, false⟩)
    ∧ extract_and_transliterate_ner cfg0 parseNone oracleNope filePlain
      = (⟨200, NerBody.err (strOfExn (Exn.httpException 400
            "Invalid file type. Please upload a .docx file."))⟩, ⟨false, false⟩) :=
  c4_wrong_content_type_no_read cfg0 parseNone oracleNope filePlain (by decide)

/-- C5: for non-empty input text, when the oracle call succeeds the
`/transliterate/text` response carries the input text unchanged as
`original_text` and the whitespace-stripped oracle reply as
`transliterated_text`. -/
theorem c5_original_text_unchanged (cfg : Config)
    (oracle : String → Except Exn String) (text reply : String)
    (h1 : text ≠ "") (h2 : oracle (translitPrompt cfg text) = Except.ok reply) :
    (transliterate_text cfg oracle text).1
      = ⟨200, TextBody.ok text (pyStrip reply)⟩ := by
  unfold transliterate_text transliterate_text_body
  simp [h1, h2, wrapText]

theorem c5_original_text_unchanged_witness :
    (transliterate_text cfg0 oracleNope "Hello world").1
      = ⟨200, TextBody.ok "Hello world" (pyStrip "nope\n")⟩ :=
  c5_original_text_unchanged cfg0 oracleNope "Hello world" "nope\n" (by decide) rfl

/-- C6: whatever exception escapes a handler body — the `HTTPException`s it
raises itself, an oracle/network failure, or any other `Exn` — the handler
boundary catches it and returns an `ErrorResponse` whose message is the
exception's `str()` rendering, instead of propagating it or a distinct HTTP
failure status.  This holds for all three endpoints. -/
theorem c6_exceptions_become_error_payload (cfg : Config)
    (parse : String → Option JsonValue) (oracle : String → Except Exn String)
    (text : String) (file : UploadFile) (e : Exn) :
    ((transliterate_text_body cfg oracle text).1 = Except.error e →
      (transliterate_text cfg oracle text).1 = ⟨200, TextBody.err (strOfExn e)⟩)
    ∧ ((transliterate_file_body cfg oracle file).1 = Except.error e →
      (transliterate_file cfg oracle file).1 = ⟨200, TextBody.err (strOfExn e)⟩)
    ∧ ((extract_and_transliterate_ner_body cfg parse oracle file).1 = Except.error e →
      (extract_and_transliterate_ner cfg parse oracle file).1
        = ⟨200, NerBody.err (strOfExn e)⟩) := by
  refine ⟨?_, ?_, ?_⟩ <;> intro h
  · show wrapText (transliterate_text_body cfg oracle text).1 = _
    rw [h]; rfl
  · show wrapText (transliterate_file_body cfg oracle file).1 = _
    rw [h]; rfl
  · show wrapNer (extract_and_transliterate_ner_body cfg parse oracle file).1 = _
    rw [h]; rfl

theorem c6_exceptions_become_error_payload_witness :
    (transliterate_text cfg0 oracleBoom "Hi").1
      = ⟨200, TextBody.err (strOfExn (Exn.other "boom"))⟩ :=
  (c6_exceptions_become_error_payload cfg0 parseNone oracleBoom "Hi" fileDocx
    (Exn.other "boom")).1 rfl

/-- C7: if any of the four required environment values (oracle API key, source
language, target language, model identifier) is absent or empty, module-level
startup raises a `ValueError` and the process does not come up. -/
theorem c7_startup_requires_config (env : String → Option String)
    (h : env "GEMINI_API_KEY" = none ∨ env "GEMINI_API_KEY" = some "" ∨
         env "INPUT_LANG" = none ∨ env "INPUT_LANG" = some "" ∨
         env "OUTPUT_LANG" = none ∨ env "OUTPUT_LANG" = some "" ∨
         env "LLM_MODEL" = none ∨ env "LLM_MODEL" = some "") :
    isError (startup env) = true := by
  by_cases h1 : truthy (env "GEMINI_API_KEY")
  · by_cases h2 : truthy (env "INPUT_LANG")
    · by_cases h3 : truthy (env "OUTPUT_LANG")
      · by_cases h4 : truthy (env "LLM_MODEL")
        · exfalso
          rcases h with h' | h' | h' | h' | h' | h' | h' | h'
          · rw [h'] at h1; simp [truthy] at h1
          · rw [h'] at h1; simp [truthy] at h1
          · rw [h'] at h2; simp [truthy] at h2
          · rw [h'] at h2; simp [truthy] at h2
          · rw [h'] at h3; simp [truthy] at h3
          · rw [h'] at h3; simp [truthy] at h3
          · rw [h'] at h4; simp [truthy] at h4
          · rw [h'] at h4; simp [truthy] at h4
        · simp [startup, h1, h2, h3, h4, isError]
      · simp [startup, h1, h2, h3, isError]
    · simp [startup, h1, h2, isError]
  · simp [startup, h1, isError]

theorem c7_startup_requires_config_witness :
    isError (startup (fun _ => none)) = true :=
  c7_startup_requires_config (fun _ => none) (Or.inl rfl)

/-- C8: every response the three handlers produce goes out with success
status 200 — the `HTTPException`s for empty text, wrong content type and
unparseable NER replies are raised inside each handler's own `try` block,
whose `except Exception` clause catches them (HTTPException subclasses
Exception) and converts them into an `{error: str(e)}` body. -/
theorem c8_no_client_error_status_escapes :
    (∀ (cfg : Config) (oracle : String → Except Exn String) (text : String),
       (transliterate_text cfg oracle text).1.status = 200)
    ∧ (∀ (cfg : Config) (oracle : String → Except Exn String) (file : UploadFile),
       (transliterate_file cfg oracle file).1.status = 200)
    ∧ (∀ (cfg : Config) (parse : String → Option JsonValue)
         (oracle : String → Except Exn String) (file : UploadFile),
       (extract_and_transliterate_ner cfg parse oracle file).1.status = 200)
    ∧ (∀ (cfg : Config) (oracle : String → Except Exn String),
       (transliterate_text cfg oracle "").1.body
         = TextBody.err (strOfExn (Exn.httpException 400 "Please provide text input.")))
    ∧ (∀ (cfg : Config) (oracle : String → Except Exn String) (file : UploadFile),
       file.contentType ≠ docxMime →
       (transliterate_file cfg oracle file).1.body
         = TextBody.err (strOfExn (Exn.httpException 400
             "Invalid file type. Please upload a .docx file.")))
    ∧ (∀ (cfg : Config) (parse : String → Option JsonValue)
         (oracle : String → Except Exn String) (file : UploadFile) (reply : String),
       file.contentType = docxMime →
       oracle (nerPrompt cfg (String.intercalate "\n" file.paragraphs)) = Except.ok reply →
       parse (pyStrip reply) = none →
       extractFencedStr (pyStrip reply) = none →
       (extract_and_transliterate_ner cfg parse oracle file).1.body
         = NerBody.err (strOfExn (Exn.httpException 400
             ("Could not extract json for NER entities : " ++ pyStrip reply)))) := by
  refine ⟨?_, ?_, ?_, ?_, ?_, ?_⟩
  · intro cfg oracle text
    exact wrapText_status (transliterate_text_body cfg oracle text).1
  · intro cfg oracle file
    exact wrapText_status (transliterate_file_body cfg oracle file).1
  · intro cfg parse oracle file
    exact wrapNer_status (extract_and_transliterate_ner_body cfg parse oracle file).1
  · intro cfg oracle
    rfl
  · intro cfg oracle file h
    show (wrapText (transliterate_file_body cfg oracle file).1).body = _
    unfold transliterate_file_body
    simp [h, wrapText]
  · intro cfg parse oracle file reply hct hor hparse hfence
    rw [ner_eval cfg parse oracle file reply hct hor]
    simp [nerParseStage, hparse, hfence, wrapNer]

theorem c8_no_client_error_status_escapes_witness :
    (extract_and_transliterate_ner cfg0 parseNone oracleNope fileDocx).1.body
      = NerBody.err (strOfExn (Exn.httpException 400
          ("Could not extract json for NER entities : " ++ pyStrip "nope\n"))) :=
  c8_no_client_error_status_escapes.2.2.2.2.2 cfg0 parseNone oracleNope fileDocx
    "nope\n" rfl rfl rfl rfl

/-- A contiguous suffix is contained. -/
theorem strContains_of_data_suffix (s t : String) (pre : List Char)
    (h : s.data = pre ++ t.data) : strContains s t = true := by
  unfold strContains
  rw [h]
  exact splitOnFirst_suffix_isSome pre t.data

/-- A `json.loads` behaviour for the fenced scenario: only the object
`{"John": "জন"}` parses (the fenced reply as a whole is not valid JSON). -/
def parseJohn : String → Option JsonValue := fun s =>
  if s = "\x7b\"John\": \"জন\"\x7d" then
    some (JsonValue.obj [("John", JsonValue.str "জন")])
  else none

/-- An oracle wrapping the JSON object in a `json`-tagged fenced block. -/
def oracleFence : String → Except Exn String :=
  fun _ => .ok "```json\n\x7b\"John\": \"জন\"\x7d\n```"

/-- C1 counterexample: with the oracle reply `"nope\n"` (not JSON, no fenced
block), the `/ner` error message embeds the *stripped* reply `"nope"`, so it
does not contain the raw reply text `"nope\n"` as the claim states. -/
theorem c1_counterexample :
    (extract_and_transliterate_ner cfg0 parseNone oracleNope fileDocx).1.body
      = NerBody.err "400: Could not extract json for NER entities : nope"
    ∧ strContains "400: Could not extract json for NER entities : nope" "nope\n" = false :=
  ⟨rfl, rfl⟩

/-- C1 (amended): for every oracle reply on `/ner`: if the trimmed reply
parses as a JSON object, that mapping is returned unchanged; otherwise, if a
fenced code block is found, its inner content is stripped and parsed and, on
success as an object, returned; if neither succeeds, the handler produces a
client-error payload whose message contains the *trimmed* reply text. -/
theorem c1_ner_reply_parsing (cfg : Config) (parse : String → Option JsonValue)
    (oracle : String → Except Exn String) (file : UploadFile) (reply : String)
    (hct : file.contentType = docxMime)
    (hor : oracle (nerPrompt cfg (String.intercalate "\n" file.paragraphs)) = Except.ok reply) :
    (∀ fields, parse (pyStrip reply) = some (JsonValue.obj fields) →
       (extract_and_transliterate_ner cfg parse oracle file).1 = ⟨200, NerBody.ok fields⟩)
    ∧ (∀ inner fields, parse (pyStrip reply) = none →
         extractFencedStr (pyStrip reply) = some inner →
         parse (pyStrip inner) = some (JsonValue.obj fields) →
         (extract_and_transliterate_ner cfg parse oracle file).1 = ⟨200, NerBody.ok fields⟩)
    ∧ (parse (pyStrip reply) = none →
         (∀ inner, extractFencedStr (pyStrip reply) = some inner → parse (pyStrip inner) = none) →
         (extract_and_transliterate_ner cfg parse oracle file).1.body
             = NerBody.err (strOfExn (Exn.httpException 400
                 ("Could not extract json for NER entities : " ++ pyStrip reply)))
           ∧ strContains (strOfExn (Exn.httpException 400
                 ("Could not extract json for NER entities : " ++ pyStrip reply)))
               (pyStrip reply) = true) := by
  have he := ner_eval cfg parse oracle file reply hct hor
  have hmsg : strContains (strOfExn (Exn.httpException 400
      ("Could not extract json for NER entities : " ++ pyStrip reply)))
      (pyStrip reply) = true := by
    refine strContains_of_data_suffix _ _
      ((toString 400 ++ ": " ++ "Could not extract json for NER entities : ").data) ?_
    simp [strOfExn, String.data_append, List.append_assoc]
  refine ⟨?_, ?_, ?_⟩
  · intro fields hp
    rw [he]
    simp [nerParseStage, hp, validateEntities, wrapNer]
  · intro inner fields hp hf hpi
    rw [he]
    simp [nerParseStage, hp, hf, hpi, validateEntities, wrapNer]
  · intro hp hall
    rw [he]
    rcases hf : extractFencedStr (pyStrip reply) with _ | inner
    · exact ⟨by simp [nerParseStage, hp, hf, wrapNer], hmsg⟩
    · have hpi := hall inner hf
      exact ⟨by simp [nerParseStage, hp, hf, hpi, wrapNer], hmsg⟩

theorem c1_ner_reply_parsing_witness :
    (extract_and_transliterate_ner cfg0 parseJohn oracleFence fileDocx).1
      = ⟨200, NerBody.ok [("John", JsonValue.str "জন")]⟩ :=
  (c1_ner_reply_parsing cfg0 parseJohn oracleFence fileDocx
      "```json\n\x7b\"John\": \"জন\"\x7d\n```" rfl rfl).2.1
    "\n\x7b\"John\": \"জন\"\x7d\n" [("John", JsonValue.str "জন")] rfl rfl rfl

/-- C9: `/ner` produces a successful entities response only when the parsed
JSON value is an object; a valid-JSON reply of any other shape fails
`NERResponse` validation and the handler returns an error payload. -/
theorem c9_entities_must_be_object (cfg : Config)
    (parse : String → Option JsonValue) (oracle : String → Except Exn String)
    (file : UploadFile) (reply : String)
    (hct : file.contentType = docxMime)
    (hor : oracle (nerPrompt cfg (String.intercalate "\n" file.paragraphs)) = Except.ok reply) :
    (∀ v, parse (pyStrip reply) = some v → (∀ fields, v ≠ JsonValue.obj fields) →
       (extract_and_transliterate_ner cfg parse oracle file).1
         = ⟨200, NerBody.err (strOfExn (Exn.validationError pydanticDictMsg))⟩)
    ∧ (∀ inner v, parse (pyStrip reply) = none →
         extractFencedStr (pyStrip reply) = some inner →
         parse (pyStrip inner) = some v → (∀ fields, v ≠ JsonValue.obj fields) →
         (extract_and_transliterate_ner cfg parse oracle file).1
           = ⟨200, NerBody.err (strOfExn (Exn.validationError pydanticDictMsg))⟩)
    ∧ (∀ fields, (extract_and_transliterate_ner cfg parse oracle file).1.body
           = NerBody.ok fields →
         parse (pyStrip reply) = some (JsonValue.obj fields) ∨
           (parse (pyStrip reply) = none ∧
             ∃ inner, extractFencedStr (pyStrip reply) = some inner ∧
               parse (pyStrip inner) = some (JsonValue.obj fields))) := by
  have he := ner_eval cfg parse oracle file reply hct hor
  refine ⟨?_, ?_, ?_⟩
  · intro v hp hnobj
    rw [he]
    rcases v with fs | es | s | n | b | _
    · exact absurd rfl (hnobj fs)
    all_goals simp [nerParseStage, hp, validateEntities, wrapNer]
  · intro inner v hp hf hpi hnobj
    rw [he]
    rcases v with fs | es | s | n | b | _
    · exact absurd rfl (hnobj fs)
    all_goals simp [nerParseStage, hp, hf, hpi, validateEntities, wrapNer]
  · intro fields hok
    rw [he] at hok
    rcases hp : parse (pyStrip reply) with _ | v
    · rcases hf : extractFencedStr (pyStrip reply) with _ | inner
      · simp [nerParseStage, hp, hf, wrapNer] at hok
      · rcases hpi : parse (pyStrip inner) with _ | v
        · simp [nerParseStage, hp, hf, hpi, wrapNer] at hok
        · rcases v with fs | es | s | n | b | _ <;>
            simp [nerParseStage, hp, hf, hpi, validateEntities, wrapNer] at hok
          subst hok
          exact Or.inr ⟨rfl, inner, rfl, hpi⟩
    · rcases v with fs | es | s | n | b | _ <;>
        simp [nerParseStage, hp, validateEntities, wrapNer] at hok
      subst hok
      exact Or.inl rfl

/-- A `json.loads` behaviour replying a JSON array. -/
def parseArr : String → Option JsonValue := fun s =>
  if s = "[1, 2]" then some (JsonValue.arr [JsonValue.num 1, JsonValue.num 2]) else none

/-- An oracle replying the JSON array `[1, 2]`. -/
def oracleArr : String → Except Exn String := fun _ => .ok "[1, 2]"

theorem c9_entities_must_be_object_witness :
    (extract_and_transliterate_ner cfg0 parseArr oracleArr fileDocx).1
      = ⟨200, NerBody.err (strOfExn (Exn.validationError pydanticDictMsg))⟩ :=
  (c9_entities_must_be_object cfg0 parseArr oracleArr fileDocx "[1, 2]" rfl rfl).1
    (JsonValue.arr [JsonValue.num 1, JsonValue.num 2]) rfl
    (fun _ h => JsonValue.noConfusion h)

/-- C10: when the stripped reply is not directly parseable and holds two
fenced blocks, only the first block (here `b₁`, backtick-free and untagged) is
extracted and parsed; if its content is invalid JSON the handler fails with
the client-error payload even though the second block `b₂` would parse as an
object. -/
theorem c10_only_first_fenced_block (cfg : Config)
    (parse : String → Option JsonValue) (oracle : String → Except Exn String)
    (file : UploadFile) (p b₁ m b₂ q : List Char) (reply : String)
    (fields : List (String × JsonValue))
    (hct : file.contentType = docxMime)
    (hor : oracle (nerPrompt cfg (String.intercalate "\n" file.paragraphs)) = Except.ok reply)
    (hshape : (pyStrip reply).data
      = p ++ fenceL ++ b₁ ++ fenceL ++ m ++ fenceL ++ b₂ ++ fenceL ++ q)
    (hp : bq ∉ p) (hb : bq ∉ b₁) (htag : jsonTagL.isPrefixOf b₁ = false)
    (hdirect : parse (pyStrip reply) = none)
    (hfirst : parse (pyStrip (String.mk b₁)) = none)
    (_hsecond : parse (pyStrip (String.mk b₂)) = some (JsonValue.obj fields)) :
    extractFencedStr (pyStrip reply) = some (String.mk b₁)
    ∧ (extract_and_transliterate_ner cfg parse oracle file).1.body
        = NerBody.err (strOfExn (Exn.httpException 400
            ("Could not extract json for NER entities : " ++ pyStrip reply))) := by
  have hx : extractFenced (pyStrip reply).data = some b₁ := by
    rw [hshape]
    have h := extractFenced_first_block p b₁ (m ++ (fenceL ++ (b₂ ++ (fenceL ++ q)))) hp hb htag
    simpa [List.append_assoc] using h
  have hfs : extractFencedStr (pyStrip reply) = some (String.mk b₁) := by
    unfold extractFencedStr
    rw [hx]
    rfl
  refine ⟨hfs, ?_⟩
  rw [ner_eval cfg parse oracle file reply hct hor]
  simp [nerParseStage, hdirect, hfs, hfirst, wrapNer]

/-- A `json.loads` behaviour under which only `{}` parses. -/
def parseBrace : String → Option JsonValue := fun s =>
  if s = "\x7b\x7d" then some (JsonValue.obj []) else none

/-- An oracle replying two fenced blocks: an invalid first block and a valid
JSON object in the second. -/
def oracleTwoBlocks : String → Except Exn String :=
  fun _ => .ok "x ```bad``` y ```\x7b\x7d``` z"

theorem c10_only_first_fenced_block_witness :
    extractFencedStr (pyStrip "x ```bad``` y ```\x7b\x7d``` z") = some (String.mk "bad".data)
    ∧ (extract_and_transliterate_ner cfg0 parseBrace oracleTwoBlocks fileDocx).1.body
        = NerBody.err (strOfExn (Exn.httpException 400
            ("Could not extract json for NER entities : "
              ++ pyStrip "x ```bad``` y ```\x7b\x7d``` z"))) :=
  c10_only_first_fenced_block cfg0 parseBrace oracleTwoBlocks fileDocx
    "x ".data "bad".data " y ".data "\x7b\x7d".data " z".data
    "x ```bad``` y ```\x7b\x7d``` z" []
    rfl rfl (by decide) (by decide) (by decide) (by decide) rfl rfl rfl

end GeminiTransliteration
